import Mathlib

/-!
Shallow embedding of the `ReliefFundManager` contract (Solidity 0.8.24) of
the Emergency-Disaster-Relief-Stablecoin-System repository, with proofs of
the registry / transfer-authorization properties stated in the
specification.

Modelling conventions:
* `Address` is `Nat`; the zero address is `0`.
* Solidity storage mappings are total functions returning the all-zero
  record for unwritten slots.
* `uint256` arithmetic is checked (Solidity at or above 0.8 reverts on
  wrap-around), so every `+=` / `++` / `--` is modelled by guarded `Nat`
  arithmetic that errors when the result would leave `[0, 2^256)`.
* Each external function takes the caller (`msg.sender`) and, where the
  body reads it, `block.timestamp` explicitly, and returns
  `Except EvmError ReliefFundManager`; a revert is an `error` and, at the
  outer transaction level (`step`), leaves the state unchanged.
* Modifier checks run in source order: `onlyOwner` / `onlyStablecoin`
  first, then `whenNotPaused`, then the body.
-/

namespace Relief

abbrev Address : Type := Nat

def UINT256MAX : Nat := 2 ^ 256 - 1

inductive EvmError where
  | ZeroAddress
  | BeneficiaryAlreadyExists
  | BeneficiaryNotFound
  | MerchantAlreadyExists
  | MerchantNotFound
  | OnlyStablecoin
  | IndexOutOfBounds
  | OwnableUnauthorizedAccount
  | EnforcedPause
  | ExpectedPause
  | ArithmeticOverflow
  | ArithmeticUnderflow
deriving DecidableEq

inductive SpendingCategory where
  | FOOD
  | MEDICAL
  | SHELTER
  | EDUCATION
  | UTILITIES
deriving DecidableEq

/-- `struct Merchant` of the contract. -/
structure Merchant where
  isActive : Bool
  category : SpendingCategory
  name : String
  registeredAt : Nat
deriving DecidableEq

/-- Value of an unwritten `mapping(address => Merchant)` slot. -/
def Merchant.zero : Merchant :=
  { isActive := false, category := .FOOD, name := "", registeredAt := 0 }

/-- `struct Beneficiary` of the contract. -/
structure Beneficiary where
  isActive : Bool
  registeredAt : Nat
  totalReceived : Nat
  totalSpent : Nat
deriving DecidableEq

/-- Value of an unwritten `mapping(address => Beneficiary)` slot. -/
def Beneficiary.zero : Beneficiary :=
  { isActive := false, registeredAt := 0, totalReceived := 0, totalSpent := 0 }

/-- `struct TransactionRecord` of the contract (`from` is a Lean keyword,
hence `from_`). -/
structure TransactionRecord where
  from_ : Address
  to_ : Address
  amount : Nat
  category : SpendingCategory
  timestamp : Nat
  success : Bool
deriving DecidableEq

/-- The storage of the `ReliefFundManager` contract, including the
`Ownable` owner and the `Pausable` flag it inherits. -/
structure ReliefFundManager where
  owner : Address
  paused : Bool
  stablecoin : Address
  beneficiaries : Address → Beneficiary
  merchants : Address → Merchant
  beneficiaryList : List Address
  merchantList : List Address
  transactionHistory : List TransactionRecord
  totalBeneficiaries : Nat
  totalMerchants : Nat
  totalTransactions : Nat

namespace ReliefFundManager

/-- State right after `constructor()`: deployer becomes owner, everything
else is zero-initialised. -/
def deploy (deployer : Address) : ReliefFundManager :=
  { owner := deployer
    paused := false
    stablecoin := 0
    beneficiaries := fun _ => Beneficiary.zero
    merchants := fun _ => Merchant.zero
    beneficiaryList := []
    merchantList := []
    transactionHistory := []
    totalBeneficiaries := 0
    totalMerchants := 0
    totalTransactions := 0 }

/-- `setStablecoin` (onlyOwner). -/
def setStablecoin (s : ReliefFundManager) (msgSender a : Address) :
    Except EvmError ReliefFundManager :=
  if msgSender ≠ s.owner then .error .OwnableUnauthorizedAccount
  else if a = 0 then .error .ZeroAddress
  else .ok { s with stablecoin := a }

/-- `addBeneficiary` (onlyOwner whenNotPaused). -/
def addBeneficiary (s : ReliefFundManager) (msgSender : Address)
    (blockTimestamp : Nat) (b : Address) : Except EvmError ReliefFundManager :=
  if msgSender ≠ s.owner then .error .OwnableUnauthorizedAccount
  else if s.paused then .error .EnforcedPause
  else if b = 0 then .error .ZeroAddress
  else if (s.beneficiaries b).registeredAt ≠ 0 then .error .BeneficiaryAlreadyExists
  else if s.totalBeneficiaries + 1 > UINT256MAX then .error .ArithmeticOverflow
  else .ok { s with
    beneficiaries := Function.update s.beneficiaries b
      { isActive := true, registeredAt := blockTimestamp,
        totalReceived := 0, totalSpent := 0 }
    beneficiaryList := s.beneficiaryList ++ [b]
    totalBeneficiaries := s.totalBeneficiaries + 1 }

/-- `removeBeneficiary` (onlyOwner); soft delete. -/
def removeBeneficiary (s : ReliefFundManager) (msgSender b : Address) :
    Except EvmError ReliefFundManager :=
  if msgSender ≠ s.owner then .error .OwnableUnauthorizedAccount
  else if b = 0 then .error .ZeroAddress
  else if !(s.beneficiaries b).isActive then .error .BeneficiaryNotFound
  else if s.totalBeneficiaries = 0 then .error .ArithmeticUnderflow
  else .ok { s with
    beneficiaries := Function.update s.beneficiaries b
      { s.beneficiaries b with isActive := false }
    totalBeneficiaries := s.totalBeneficiaries - 1 }

/-- `addMerchant` (onlyOwner whenNotPaused). -/
def addMerchant (s : ReliefFundManager) (msgSender : Address)
    (blockTimestamp : Nat) (m : Address) (category : SpendingCategory)
    (name : String) : Except EvmError ReliefFundManager :=
  if msgSender ≠ s.owner then .error .OwnableUnauthorizedAccount
  else if s.paused then .error .EnforcedPause
  else if m = 0 then .error .ZeroAddress
  else if (s.merchants m).registeredAt ≠ 0 then .error .MerchantAlreadyExists
  else if s.totalMerchants + 1 > UINT256MAX then .error .ArithmeticOverflow
  else .ok { s with
    merchants := Function.update s.merchants m
      { isActive := true, category := category, name := name,
        registeredAt := blockTimestamp }
    merchantList := s.merchantList ++ [m]
    totalMerchants := s.totalMerchants + 1 }

/-- `removeMerchant` (onlyOwner); soft delete. -/
def removeMerchant (s : ReliefFundManager) (msgSender m : Address) :
    Except EvmError ReliefFundManager :=
  if msgSender ≠ s.owner then .error .OwnableUnauthorizedAccount
  else if m = 0 then .error .ZeroAddress
  else if !(s.merchants m).isActive then .error .MerchantNotFound
  else if s.totalMerchants = 0 then .error .ArithmeticUnderflow
  else .ok { s with
    merchants := Function.update s.merchants m
      { s.merchants m with isActive := false }
    totalMerchants := s.totalMerchants - 1 }

/-- `isTransferAllowed` (view; the `amount` parameter is unused, as in the
source). -/
def isTransferAllowed (s : ReliefFundManager) (from_ to_ : Address)
    (_amount : Nat) : Bool :=
  if !(s.beneficiaries from_).isActive then true
  else if !(s.merchants to_).isActive then false
  else true

/-- `recordTransfer` (onlyStablecoin). -/
def recordTransfer (s : ReliefFundManager) (msgSender from_ to_ : Address)
    (amount blockTimestamp : Nat) : Except EvmError ReliefFundManager :=
  if msgSender ≠ s.stablecoin then .error .OnlyStablecoin
  else if (s.beneficiaries from_).isActive && (s.merchants to_).isActive then
    if (s.beneficiaries from_).totalSpent + amount > UINT256MAX then
      .error .ArithmeticOverflow
    else if s.totalTransactions + 1 > UINT256MAX then .error .ArithmeticOverflow
    else .ok { s with
      beneficiaries := Function.update s.beneficiaries from_
        { s.beneficiaries from_ with
          totalSpent := (s.beneficiaries from_).totalSpent + amount }
      transactionHistory := s.transactionHistory ++
        [{ from_ := from_, to_ := to_, amount := amount,
           category := (s.merchants to_).category,
           timestamp := blockTimestamp, success := true }]
      totalTransactions := s.totalTransactions + 1 }
  else .ok s

/-- `recordDistribution` (onlyOwner). -/
def recordDistribution (s : ReliefFundManager) (msgSender b : Address)
    (amount : Nat) : Except EvmError ReliefFundManager :=
  if msgSender ≠ s.owner then .error .OwnableUnauthorizedAccount
  else if (s.beneficiaries b).isActive then
    if (s.beneficiaries b).totalReceived + amount > UINT256MAX then
      .error .ArithmeticOverflow
    else .ok { s with
      beneficiaries := Function.update s.beneficiaries b
        { s.beneficiaries b with
          totalReceived := (s.beneficiaries b).totalReceived + amount } }
  else .ok s

/-- `pauseSystem` (onlyOwner; `_pause` itself requires not paused). -/
def pauseSystem (s : ReliefFundManager) (msgSender : Address) :
    Except EvmError ReliefFundManager :=
  if msgSender ≠ s.owner then .error .OwnableUnauthorizedAccount
  else if s.paused then .error .EnforcedPause
  else .ok { s with paused := true }

/-- `unpauseSystem` (onlyOwner; `_unpause` itself requires paused). -/
def unpauseSystem (s : ReliefFundManager) (msgSender : Address) :
    Except EvmError ReliefFundManager :=
  if msgSender ≠ s.owner then .error .OwnableUnauthorizedAccount
  else if !s.paused then .error .ExpectedPause
  else .ok { s with paused := false }

/-- `isBeneficiary` (view). -/
def isBeneficiary (s : ReliefFundManager) (a : Address) : Bool :=
  (s.beneficiaries a).isActive

/-- `isMerchant` (view). -/
def isMerchant (s : ReliefFundManager) (a : Address) : Bool :=
  (s.merchants a).isActive

/-- `getMerchantDetails` (view): `(isActive, category, name, registeredAt)`. -/
def getMerchantDetails (s : ReliefFundManager) (m : Address) :
    Bool × SpendingCategory × String × Nat :=
  ((s.merchants m).isActive, (s.merchants m).category,
   (s.merchants m).name, (s.merchants m).registeredAt)

/-- `getBeneficiaryDetails` (view). -/
def getBeneficiaryDetails (s : ReliefFundManager) (b : Address) :
    Bool × Nat × Nat × Nat :=
  ((s.beneficiaries b).isActive, (s.beneficiaries b).registeredAt,
   (s.beneficiaries b).totalReceived, (s.beneficiaries b).totalSpent)

/-- `getTransactionCount` (view). -/
def getTransactionCount (s : ReliefFundManager) : Nat :=
  s.transactionHistory.length

/-- `getTransaction` (view): `require(index < length)` then index. -/
def getTransaction (s : ReliefFundManager) (index : Nat) :
    Except EvmError TransactionRecord :=
  if h : index < s.transactionHistory.length then
    .ok (s.transactionHistory.get ⟨index, h⟩)
  else .error .IndexOutOfBounds

end ReliefFundManager

open ReliefFundManager

/-- One external state-changing call to the contract, with its caller and
(for the bodies that read it) block timestamp. -/
inductive Op where
  | setStablecoin (msgSender a : Address)
  | addBeneficiary (msgSender : Address) (blockTimestamp : Nat) (b : Address)
  | removeBeneficiary (msgSender b : Address)
  | addMerchant (msgSender : Address) (blockTimestamp : Nat) (m : Address)
      (category : SpendingCategory) (name : String)
  | removeMerchant (msgSender m : Address)
  | recordTransfer (msgSender from_ to_ : Address) (amount blockTimestamp : Nat)
  | recordDistribution (msgSender b : Address) (amount : Nat)
  | pauseSystem (msgSender : Address)
  | unpauseSystem (msgSender : Address)

/-- Dispatch an external call. -/
def execOp (s : ReliefFundManager) : Op → Except EvmError ReliefFundManager
  | .setStablecoin c a => s.setStablecoin c a
  | .addBeneficiary c ts b => s.addBeneficiary c ts b
  | .removeBeneficiary c b => s.removeBeneficiary c b
  | .addMerchant c ts m cat n => s.addMerchant c ts m cat n
  | .removeMerchant c m => s.removeMerchant c m
  | .recordTransfer c f t amt ts => s.recordTransfer c f t amt ts
  | .recordDistribution c b amt => s.recordDistribution c b amt
  | .pauseSystem c => s.pauseSystem c
  | .unpauseSystem c => s.unpauseSystem c

/-- Transaction-level semantics: a revert rolls the state back. -/
def step (s : ReliefFundManager) (op : Op) : ReliefFundManager :=
  match execOp s op with
  | .ok s' => s'
  | .error _ => s

/-- Run a sequence of external calls. -/
def run (s : ReliefFundManager) (ops : List Op) : ReliefFundManager :=
  ops.foldl step s

end Relief

namespace Relief

/-- Sample deployment: account 1 is the owner/admin. -/
def s0 : ReliefFundManager := ReliefFundManager.deploy 1

/-- Sample state: stablecoin set to account 2, beneficiary 5 registered at
time 10, merchant 7 (MEDICAL, "X") registered at time 11. -/
def s1 : ReliefFundManager :=
  run s0 [.setStablecoin 1 2, .addBeneficiary 1 10 5,
          .addMerchant 1 11 7 .MEDICAL "X"]

/-- Sample state: one recorded transfer of 100 from beneficiary 5 to
merchant 7 on top of `s1`. -/
def s2 : ReliefFundManager := step s1 (.recordTransfer 2 5 7 100 20)

/-- Sample state: three recorded transfers on top of `s1`. -/
def s3 : ReliefFundManager :=
  run s1 [.recordTransfer 2 5 7 100 20, .recordTransfer 2 5 7 50 21,
          .recordTransfer 2 5 7 25 22]

end Relief

namespace Relief

open ReliefFundManager

/-- C1: for every sender, recipient and amount, `isTransferAllowed` returns
`true` whenever the sender is not an active beneficiary; and when the sender
is an active beneficiary it returns `true` iff the recipient is an active
merchant. -/
theorem isTransferAllowed_spec (s : ReliefFundManager) (from_ to_ : Address)
    (amount : Nat) :
    ((s.beneficiaries from_).isActive = false →
      s.isTransferAllowed from_ to_ amount = true) ∧
    ((s.beneficiaries from_).isActive = true →
      (s.isTransferAllowed from_ to_ amount = true ↔ s.isMerchant to_ = true)) := by
  unfold ReliefFundManager.isTransferAllowed ReliefFundManager.isMerchant
  constructor
  · intro h
    simp [h]
  · intro h
    cases hm : (s.merchants to_).isActive <;> simp [h, hm]

/-- Witness for C1: a non-beneficiary sender (account 9) may send anywhere;
an active beneficiary (account 5) obeys the merchant rule. -/
theorem isTransferAllowed_spec_witness :
    ((s1.beneficiaries 9).isActive = false ∧
      s1.isTransferAllowed 9 3 100 = true) ∧
    ((s1.beneficiaries 5).isActive = true ∧
      (s1.isTransferAllowed 5 7 100 = true ↔ s1.isMerchant 7 = true)) :=
  ⟨⟨by decide, (isTransferAllowed_spec s1 9 3 100).1 (by decide)⟩,
   ⟨by decide, (isTransferAllowed_spec s1 5 7 100).2 (by decide)⟩⟩

/-- C3: `recordTransfer` invoked by any caller other than the configured
stablecoin address fails with `OnlyStablecoin`, and at transaction level
the registry state (in particular the log) is unchanged. -/
theorem recordTransfer_unauthorized (s : ReliefFundManager)
    (msgSender from_ to_ : Address) (amount ts : Nat)
    (h : msgSender ≠ s.stablecoin) :
    s.recordTransfer msgSender from_ to_ amount ts = .error .OnlyStablecoin ∧
    step s (.recordTransfer msgSender from_ to_ amount ts) = s := by
  have he : s.recordTransfer msgSender from_ to_ amount ts =
      .error .OnlyStablecoin := by
    unfold ReliefFundManager.recordTransfer
    rw [if_pos h]
  exact ⟨he, by simp [step, execOp, he]⟩

/-- Witness for C3: account 3 is not the stablecoin of `s1`. -/
theorem recordTransfer_unauthorized_witness :
    s1.recordTransfer 3 5 7 100 20 = .error .OnlyStablecoin ∧
    step s1 (.recordTransfer 3 5 7 100 20) = s1 :=
  recordTransfer_unauthorized s1 3 5 7 100 20 (by decide)

/-- C9: `getTransaction k` fails with the index-out-of-range error iff `k`
is at least the log length, and for every `k` below the length it returns
the stored record (the in-bounds access carries its proof). -/
theorem getTransaction_bounds (s : ReliefFundManager) (k : Nat) :
    (s.getTransaction k = .error .IndexOutOfBounds ↔ s.getTransactionCount ≤ k) ∧
    ∀ h : k < s.getTransactionCount,
      s.getTransaction k = .ok (s.transactionHistory.get ⟨k, h⟩) := by
  unfold ReliefFundManager.getTransaction ReliefFundManager.getTransactionCount
  by_cases hk : k < s.transactionHistory.length
  · rw [dif_pos hk]
    exact ⟨⟨fun h => Except.noConfusion h, fun h => absurd hk (by omega)⟩,
      fun _ => rfl⟩
  · rw [dif_neg hk]
    exact ⟨⟨fun _ => by omega, fun _ => rfl⟩, fun h => absurd h hk⟩

/-- Witness for C9: on the three-entry log of `s3`, index 5 fails and
index 1 returns the stored record. -/
theorem getTransaction_bounds_witness :
    s3.getTransactionCount = 3 ∧
    s3.getTransaction 5 = .error .IndexOutOfBounds ∧
    s3.getTransaction 1 = .ok (s3.transactionHistory.get ⟨1, by decide⟩) :=
  ⟨by decide, (getTransaction_bounds s3 5).1.mpr (by decide),
   (getTransaction_bounds s3 1).2 (by decide)⟩

/-- C10: each of the four whitelist mutations, called by the owner (with
the system not paused) on the zero address, fails with `ZeroAddress`, and
at transaction level the state is unchanged. -/
theorem whitelist_zero_address (s : ReliefFundManager) (ts : Nat)
    (category : SpendingCategory) (name : String) (hp : s.paused = false) :
    (s.addBeneficiary s.owner ts 0 = .error .ZeroAddress ∧
      step s (.addBeneficiary s.owner ts 0) = s) ∧
    (s.removeBeneficiary s.owner 0 = .error .ZeroAddress ∧
      step s (.removeBeneficiary s.owner 0) = s) ∧
    (s.addMerchant s.owner ts 0 category name = .error .ZeroAddress ∧
      step s (.addMerchant s.owner ts 0 category name) = s) ∧
    (s.removeMerchant s.owner 0 = .error .ZeroAddress ∧
      step s (.removeMerchant s.owner 0) = s) := by
  have h1 : s.addBeneficiary s.owner ts 0 = .error .ZeroAddress := by
    simp [ReliefFundManager.addBeneficiary, hp]
  have h2 : s.removeBeneficiary s.owner 0 = .error .ZeroAddress := by
    simp [ReliefFundManager.removeBeneficiary]
  have h3 : s.addMerchant s.owner ts 0 category name = .error .ZeroAddress := by
    simp [ReliefFundManager.addMerchant, hp]
  have h4 : s.removeMerchant s.owner 0 = .error .ZeroAddress := by
    simp [ReliefFundManager.removeMerchant]
  exact ⟨⟨h1, by simp [step, execOp, h1]⟩, ⟨h2, by simp [step, execOp, h2]⟩,
    ⟨h3, by simp [step, execOp, h3]⟩, ⟨h4, by simp [step, execOp, h4]⟩⟩

/-- Witness for C10, at the not-paused state `s1`. -/
theorem whitelist_zero_address_witness :
    (s1.addBeneficiary s1.owner 30 0 = .error .ZeroAddress ∧
      step s1 (.addBeneficiary s1.owner 30 0) = s1) ∧
    (s1.removeBeneficiary s1.owner 0 = .error .ZeroAddress ∧
      step s1 (.removeBeneficiary s1.owner 0) = s1) ∧
    (s1.addMerchant s1.owner 30 0 .FOOD "Z" = .error .ZeroAddress ∧
      step s1 (.addMerchant s1.owner 30 0 .FOOD "Z") = s1) ∧
    (s1.removeMerchant s1.owner 0 = .error .ZeroAddress ∧
      step s1 (.removeMerchant s1.owner 0) = s1) :=
  whitelist_zero_address s1 30 .FOOD "Z" (by decide)

end Relief

namespace Relief

/-- C2: a `recordTransfer` by the stablecoin for an active beneficiary and
an active merchant (whose accumulator and counter do not overflow uint256)
increments the sender totalSpent by exactly the amount, appends exactly one
success record carrying the recipient current category, increments the
transaction counter by one, and changes no other beneficiary or merchant
record. -/
theorem recordTransfer_success_spec (s : ReliefFundManager)
    (msgSender from_ to_ : Address) (amount ts : Nat)
    (hc : msgSender = s.stablecoin)
    (hb : (s.beneficiaries from_).isActive = true)
    (hm : (s.merchants to_).isActive = true)
    (h1 : (s.beneficiaries from_).totalSpent + amount ≤ UINT256MAX)
    (h2 : s.totalTransactions + 1 ≤ UINT256MAX) :
    ∃ s', s.recordTransfer msgSender from_ to_ amount ts = .ok s' ∧
      (s'.beneficiaries from_).totalSpent =
        (s.beneficiaries from_).totalSpent + amount ∧
      (s'.beneficiaries from_).totalReceived =
        (s.beneficiaries from_).totalReceived ∧
      (s'.beneficiaries from_).isActive = (s.beneficiaries from_).isActive ∧
      (s'.beneficiaries from_).registeredAt =
        (s.beneficiaries from_).registeredAt ∧
      s'.transactionHistory = s.transactionHistory ++
        [{ from_ := from_, to_ := to_, amount := amount,
           category := (s.merchants to_).category, timestamp := ts,
           success := true }] ∧
      s'.totalTransactions = s.totalTransactions + 1 ∧
      (∀ a, a ≠ from_ → s'.beneficiaries a = s.beneficiaries a) ∧
      (∀ a, s'.merchants a = s.merchants a) := by
  have hok : s.recordTransfer msgSender from_ to_ amount ts = .ok
      { s with
        beneficiaries := Function.update s.beneficiaries from_
          { s.beneficiaries from_ with
            totalSpent := (s.beneficiaries from_).totalSpent + amount }
        transactionHistory := s.transactionHistory ++
          [{ from_ := from_, to_ := to_, amount := amount,
             category := (s.merchants to_).category, timestamp := ts,
             success := true }]
        totalTransactions := s.totalTransactions + 1 } := by
    unfold ReliefFundManager.recordTransfer
    rw [if_neg (by simp [hc]), if_pos (by simp [hb, hm]),
      if_neg (by omega), if_neg (by omega)]
  refine ⟨_, hok, by simp [Function.update_same], by simp [Function.update_same],
    by simp [Function.update_same, hb], by simp [Function.update_same], rfl, rfl,
    fun a ha => by simp [Function.update_noteq ha], fun a => rfl⟩

/-- Witness for C2: the transfer of 100 from beneficiary 5 to merchant 7
in `s1`, recorded by the stablecoin account 2. -/
theorem recordTransfer_success_spec_witness :
    ∃ s', s1.recordTransfer 2 5 7 100 20 = .ok s' ∧
      (s'.beneficiaries 5).totalSpent = (s1.beneficiaries 5).totalSpent + 100 ∧
      (s'.beneficiaries 5).totalReceived = (s1.beneficiaries 5).totalReceived ∧
      (s'.beneficiaries 5).isActive = (s1.beneficiaries 5).isActive ∧
      (s'.beneficiaries 5).registeredAt = (s1.beneficiaries 5).registeredAt ∧
      s'.transactionHistory = s1.transactionHistory ++
        [{ from_ := 5, to_ := 7, amount := 100,
           category := (s1.merchants 7).category, timestamp := 20,
           success := true }] ∧
      s'.totalTransactions = s1.totalTransactions + 1 ∧
      (∀ a, a ≠ 5 → s'.beneficiaries a = s1.beneficiaries a) ∧
      (∀ a, s'.merchants a = s1.merchants a) :=
  recordTransfer_success_spec s1 2 5 7 100 20 (by decide) (by decide)
    (by decide) (by decide) (by decide)

/-- C4: `recordTransfer` by the stablecoin for a pair that is not
active-beneficiary to active-merchant succeeds and leaves the state
unchanged; `recordDistribution` by the owner is a silent no-op for an
inactive beneficiary, and for an active one (absent uint256 overflow)
increases totalReceived by the amount, touching nothing else. -/
theorem silent_noop_spec (s : ReliefFundManager) (from_ to_ b : Address)
    (amount amount2 ts : Nat) :
    (¬((s.beneficiaries from_).isActive = true ∧
        (s.merchants to_).isActive = true) →
      s.recordTransfer s.stablecoin from_ to_ amount ts = .ok s) ∧
    ((s.beneficiaries b).isActive = false →
      s.recordDistribution s.owner b amount2 = .ok s) ∧
    ((s.beneficiaries b).isActive = true →
      (s.beneficiaries b).totalReceived + amount2 ≤ UINT256MAX →
      ∃ s', s.recordDistribution s.owner b amount2 = .ok s' ∧
        (s'.beneficiaries b).totalReceived =
          (s.beneficiaries b).totalReceived + amount2 ∧
        (s'.beneficiaries b).totalSpent = (s.beneficiaries b).totalSpent ∧
        (s'.beneficiaries b).isActive = (s.beneficiaries b).isActive ∧
        (∀ a, a ≠ b → s'.beneficiaries a = s.beneficiaries a) ∧
        s'.transactionHistory = s.transactionHistory ∧
        (∀ a, s'.merchants a = s.merchants a)) := by
  refine ⟨?_, ?_, ?_⟩
  · intro h
    unfold ReliefFundManager.recordTransfer
    rw [if_neg (by simp), if_neg (by simpa [Bool.and_eq_true] using h)]
  · intro h
    unfold ReliefFundManager.recordDistribution
    rw [if_neg (by simp), if_neg (by simp [h])]
  · intro h hfit
    have hok : s.recordDistribution s.owner b amount2 = .ok
        { s with
          beneficiaries := Function.update s.beneficiaries b
            { s.beneficiaries b with
              totalReceived := (s.beneficiaries b).totalReceived + amount2 } } := by
      unfold ReliefFundManager.recordDistribution
      rw [if_neg (by simp), if_pos (by simp [h]), if_neg (by omega)]
    refine ⟨_, hok, by simp [Function.update_same], by simp [Function.update_same],
      by simp [Function.update_same, h],
      fun a ha => by simp [Function.update_noteq ha], rfl, fun a => rfl⟩

/-- Witness for C4: in `s1`, account 9 is no beneficiary and account 3 no
merchant, so the stablecoin-recorded (9,3) transfer is a no-op;
`recordDistribution` to non-beneficiary 9 is a no-op and to beneficiary 5
adds 400 to totalReceived. -/
theorem silent_noop_spec_witness :
    s1.recordTransfer s1.stablecoin 9 3 100 20 = .ok s1 ∧
    s1.recordDistribution s1.owner 9 400 = .ok s1 ∧
    ∃ s', s1.recordDistribution s1.owner 5 400 = .ok s' ∧
      (s'.beneficiaries 5).totalReceived =
        (s1.beneficiaries 5).totalReceived + 400 ∧
      (s'.beneficiaries 5).totalSpent = (s1.beneficiaries 5).totalSpent ∧
      (s'.beneficiaries 5).isActive = (s1.beneficiaries 5).isActive ∧
      (∀ a, a ≠ 5 → s'.beneficiaries a = s1.beneficiaries a) ∧
      s'.transactionHistory = s1.transactionHistory ∧
      (∀ a, s'.merchants a = s1.merchants a) :=
  ⟨(silent_noop_spec s1 9 3 9 100 400 20).1 (by decide),
   (silent_noop_spec s1 9 3 9 100 400 20).2.1 (by decide),
   (silent_noop_spec s1 9 3 5 100 400 20).2.2 (by decide) (by decide)⟩

/-- C6: a successful `addMerchant m category name` (registered at time ts)
makes `getMerchantDetails m` return exactly (true, category, name, ts),
for every identity, category and name. -/
theorem addMerchant_roundTrip (s s' : ReliefFundManager) (msgSender m : Address)
    (ts : Nat) (category : SpendingCategory) (name : String)
    (h : s.addMerchant msgSender ts m category name = .ok s') :
    s'.getMerchantDetails m = (true, category, name, ts) := by
  unfold ReliefFundManager.addMerchant at h
  split at h
  · exact Except.noConfusion h
  split at h
  · exact Except.noConfusion h
  split at h
  · exact Except.noConfusion h
  split at h
  · exact Except.noConfusion h
  split at h
  · exact Except.noConfusion h
  injection h with h
  subst h
  simp [ReliefFundManager.getMerchantDetails, Function.update_same]

/-- Witness for C6: adding merchant 7 with category FOOD and name "X" to
the fresh deployment and reading it back. -/
theorem addMerchant_roundTrip_witness :
    ReliefFundManager.getMerchantDetails
      (step s0 (.addMerchant 1 11 7 .FOOD "X")) 7 = (true, .FOOD, "X", 11) :=
  addMerchant_roundTrip s0 (step s0 (.addMerchant 1 11 7 .FOOD "X")) 1 7 11
    .FOOD "X" rfl

end Relief

namespace Relief

/-- C5 counterexample: the zero address is an identity with no active
record ("never added" — it can never be added), yet `removeBeneficiary 0`
called by the owner fails with `ZeroAddress`, not `BeneficiaryNotFound`:
the zero-address check runs first. -/
theorem removeBeneficiary_zero_counterexample :
    (s0.beneficiaries 0).isActive = false ∧
    s0.removeBeneficiary s0.owner 0 = .error .ZeroAddress ∧
    s0.removeBeneficiary s0.owner 0 ≠ .error .BeneficiaryNotFound := by
  have h0 : s0.removeBeneficiary s0.owner 0 = .error .ZeroAddress := rfl
  refine ⟨by decide, h0, ?_⟩
  rw [h0]
  intro h
  exact EvmError.noConfusion (Except.error.inj h)

/-- C5 (amended to nonzero identities): for every nonzero identity `i`,
owner-called `addBeneficiary i` with the system not paused fails with
`BeneficiaryAlreadyExists` whenever `i` already has a record (active or
soft-deleted, i.e. nonzero registration time); any successful
`addBeneficiary` creates an active record with zero accumulators; and
owner-called `removeBeneficiary i` with no active record fails with
`BeneficiaryNotFound`. -/
theorem add_remove_beneficiary_spec (s s' : ReliefFundManager) (i : Address)
    (ts : Nat) :
    (s.paused = false → i ≠ 0 → (s.beneficiaries i).registeredAt ≠ 0 →
      s.addBeneficiary s.owner ts i = .error .BeneficiaryAlreadyExists) ∧
    (s.addBeneficiary s.owner ts i = .ok s' →
      s'.beneficiaries i =
        { isActive := true, registeredAt := ts,
          totalReceived := 0, totalSpent := 0 }) ∧
    (i ≠ 0 → (s.beneficiaries i).isActive = false →
      s.removeBeneficiary s.owner i = .error .BeneficiaryNotFound) := by
  refine ⟨?_, ?_, ?_⟩
  · intro hp hi hr
    unfold ReliefFundManager.addBeneficiary
    rw [if_neg (by simp), if_neg (by simp [hp]), if_neg hi, if_pos hr]
  · intro h
    unfold ReliefFundManager.addBeneficiary at h
    split at h
    · exact Except.noConfusion h
    split at h
    · exact Except.noConfusion h
    split at h
    · exact Except.noConfusion h
    split at h
    · exact Except.noConfusion h
    split at h
    · exact Except.noConfusion h
    injection h with h
    subst h
    simp [Function.update_same]
  · intro hi hact
    unfold ReliefFundManager.removeBeneficiary
    rw [if_neg (by simp), if_neg hi, if_pos (by simp [hact])]

/-- Witness for C5 (amended): duplicate add of beneficiary 5 in `s1` fails
with `BeneficiaryAlreadyExists`; the successful add of 5 to the fresh
deployment created the zeroed active record; removing never-added 9 from
`s1` fails with `BeneficiaryNotFound`. -/
theorem add_remove_beneficiary_spec_witness :
    s1.addBeneficiary s1.owner 99 5 = .error .BeneficiaryAlreadyExists ∧
    (step s0 (.addBeneficiary 1 10 5)).beneficiaries 5 =
      { isActive := true, registeredAt := 10,
        totalReceived := 0, totalSpent := 0 } ∧
    s1.removeBeneficiary s1.owner 9 = .error .BeneficiaryNotFound :=
  ⟨(add_remove_beneficiary_spec s1 s1 5 99).1 (by decide) (by decide) (by decide),
   (add_remove_beneficiary_spec s0 (step s0 (.addBeneficiary 1 10 5)) 5 10).2.1 rfl,
   (add_remove_beneficiary_spec s1 s1 9 0).2.2 (by decide) (by decide)⟩

end Relief

namespace Relief

/-- Any successful external call only ever appends to the transaction
history. -/
theorem execOp_history (s : ReliefFundManager) (op : Op)
    (s' : ReliefFundManager) (h : execOp s op = .ok s') :
    ∃ t, s'.transactionHistory = s.transactionHistory ++ t := by
  cases op <;>
    simp only [execOp, ReliefFundManager.setStablecoin,
      ReliefFundManager.addBeneficiary, ReliefFundManager.removeBeneficiary,
      ReliefFundManager.addMerchant, ReliefFundManager.removeMerchant,
      ReliefFundManager.recordTransfer, ReliefFundManager.recordDistribution,
      ReliefFundManager.pauseSystem, ReliefFundManager.unpauseSystem] at h <;>
    (repeat' split at h) <;>
    first
      | exact Except.noConfusion h
      | (injection h with h; subst h; exact ⟨_, rfl⟩)
      | (injection h with h; subst h; exact ⟨[], (List.append_nil _).symm⟩)

/-- Transaction-level version of `execOp_history`: reverts keep the log. -/
theorem step_history (s : ReliefFundManager) (op : Op) :
    ∃ t, (step s op).transactionHistory = s.transactionHistory ++ t := by
  cases hE : execOp s op with
  | ok s' =>
    have := execOp_history s op s' hE
    simpa [step, hE] using this
  | error e => simp [step, hE]

/-- Running any sequence of external calls only appends to the log. -/
theorem run_history (s : ReliefFundManager) (ops : List Op) :
    ∃ t, (run s ops).transactionHistory = s.transactionHistory ++ t := by
  induction ops generalizing s with
  | nil => exact ⟨[], by simp [run]⟩
  | cons op ops ih =>
    obtain ⟨t1, h1⟩ := step_history s op
    obtain ⟨t2, h2⟩ := ih (step s op)
    refine ⟨t1 ++ t2, ?_⟩
    have hrun : run s (op :: ops) = run (step s op) ops := by
      simp [run]
    rw [hrun, h2, h1, List.append_assoc]

/-- `getTransaction` answers correspond to optional indexing into the log. -/
theorem getTransaction_eq_ok_iff (s : ReliefFundManager) (k : Nat)
    (r : TransactionRecord) :
    s.getTransaction k = .ok r ↔ s.transactionHistory[k]? = some r := by
  unfold ReliefFundManager.getTransaction
  split
  case isTrue h =>
    rw [List.getElem?_eq_getElem h]
    constructor
    · intro he
      injection he with he
      rw [← he]
      simp [List.get_eq_getElem]
    · intro he
      injection he with he
      simp [List.get_eq_getElem, he]
  case isFalse h =>
    rw [List.getElem?_eq_none (by omega)]
    exact ⟨fun he => Except.noConfusion he, fun he => Option.noConfusion he⟩

/-- A `getTransaction` answer survives appending to the log. -/
theorem getTransaction_mono (s s' : ReliefFundManager)
    (hext : ∃ t, s'.transactionHistory = s.transactionHistory ++ t)
    (k : Nat) (r : TransactionRecord) (hk : s.getTransaction k = .ok r) :
    s'.getTransaction k = .ok r := by
  obtain ⟨t, ht⟩ := hext
  rw [getTransaction_eq_ok_iff] at hk ⊢
  have hlt : k < s.transactionHistory.length := by
    by_contra hge
    rw [List.getElem?_eq_none (by omega)] at hk
    exact Option.noConfusion hk
  rw [ht, List.getElem?_append, if_pos hlt]
  exact hk

/-- C7: across every sequence of registry operations the transaction log is
append-only — the count never decreases, and a record once readable at
index k is returned unchanged by every later `getTransaction k`. -/
theorem transactionLog_append_only (s : ReliefFundManager) (ops : List Op) :
    s.getTransactionCount ≤ (run s ops).getTransactionCount ∧
    ∀ k r, s.getTransaction k = .ok r → (run s ops).getTransaction k = .ok r := by
  obtain ⟨t, ht⟩ := run_history s ops
  constructor
  · unfold ReliefFundManager.getTransactionCount
    rw [ht, List.length_append]
    omega
  · intro k r hk
    exact getTransaction_mono s _ ⟨t, ht⟩ k r hk

/-- Witness for C7: the first record of `s2` survives a later merchant
removal and another recorded transfer, and the count does not decrease. -/
theorem transactionLog_append_only_witness :
    s2.getTransaction 0 = .ok
      { from_ := 5, to_ := 7, amount := 100, category := .MEDICAL,
        timestamp := 20, success := true } ∧
    (run s2 [.recordTransfer 2 5 7 50 21, .removeMerchant 1 7]).getTransaction 0 =
      .ok { from_ := 5, to_ := 7, amount := 100, category := .MEDICAL,
            timestamp := 20, success := true } ∧
    s2.getTransactionCount ≤
      (run s2 [.recordTransfer 2 5 7 50 21, .removeMerchant 1 7]).getTransactionCount :=
  ⟨rfl,
   (transactionLog_append_only s2 [.recordTransfer 2 5 7 50 21,
      .removeMerchant 1 7]).2 0 _ rfl,
   (transactionLog_append_only s2 [.recordTransfer 2 5 7 50 21,
      .removeMerchant 1 7]).1⟩

end Relief

namespace Relief

/-- Any successful external call leaves every beneficiary's accumulators
at least as large, given the storage shape Solidity guarantees: an
unwritten slot (zero registration time) has zero accumulators. -/
theorem execOp_accumulators (s : ReliefFundManager) (op : Op)
    (s' : ReliefFundManager) (h : execOp s op = .ok s') (a : Address)
    (hwf : (s.beneficiaries a).registeredAt = 0 →
      (s.beneficiaries a).totalReceived = 0 ∧ (s.beneficiaries a).totalSpent = 0) :
    (s.beneficiaries a).totalReceived ≤ (s'.beneficiaries a).totalReceived ∧
    (s.beneficiaries a).totalSpent ≤ (s'.beneficiaries a).totalSpent := by
  cases op with
  | setStablecoin c x =>
    simp only [execOp, ReliefFundManager.setStablecoin] at h
    split at h
    · exact Except.noConfusion h
    split at h
    · exact Except.noConfusion h
    injection h with h
    subst h
    exact ⟨le_refl _, le_refl _⟩
  | addBeneficiary c ts b =>
    simp only [execOp, ReliefFundManager.addBeneficiary] at h
    split at h
    · exact Except.noConfusion h
    split at h
    · exact Except.noConfusion h
    split at h
    · exact Except.noConfusion h
    split at h
    · exact Except.noConfusion h
    split at h
    · exact Except.noConfusion h
    rename_i hreg hover
    injection h with h
    subst h
    by_cases hab : a = b
    · subst hab
      obtain ⟨h1, h2⟩ := hwf (by simpa using hreg)
      simp only [Function.update_same]
      exact ⟨by simp [h1], by simp [h2]⟩
    · simp [Function.update_noteq hab]
  | removeBeneficiary c b =>
    simp only [execOp, ReliefFundManager.removeBeneficiary] at h
    split at h
    · exact Except.noConfusion h
    split at h
    · exact Except.noConfusion h
    split at h
    · exact Except.noConfusion h
    split at h
    · exact Except.noConfusion h
    injection h with h
    subst h
    by_cases hab : a = b
    · subst hab
      simp only [Function.update_same]
      exact ⟨le_refl _, le_refl _⟩
    · simp [Function.update_noteq hab]
  | addMerchant c ts m cat n =>
    simp only [execOp, ReliefFundManager.addMerchant] at h
    split at h
    · exact Except.noConfusion h
    split at h
    · exact Except.noConfusion h
    split at h
    · exact Except.noConfusion h
    split at h
    · exact Except.noConfusion h
    split at h
    · exact Except.noConfusion h
    injection h with h
    subst h
    exact ⟨le_refl _, le_refl _⟩
  | removeMerchant c m =>
    simp only [execOp, ReliefFundManager.removeMerchant] at h
    split at h
    · exact Except.noConfusion h
    split at h
    · exact Except.noConfusion h
    split at h
    · exact Except.noConfusion h
    split at h
    · exact Except.noConfusion h
    injection h with h
    subst h
    exact ⟨le_refl _, le_refl _⟩
  | recordTransfer c f t amt ts =>
    simp only [execOp, ReliefFundManager.recordTransfer] at h
    split at h
    · exact Except.noConfusion h
    split at h
    · split at h
      · exact Except.noConfusion h
      split at h
      · exact Except.noConfusion h
      injection h with h
      subst h
      by_cases hab : a = f
      · subst hab
        simp only [Function.update_same]
        exact ⟨le_refl _, Nat.le_add_right _ _⟩
      · simp [Function.update_noteq hab]
    · injection h with h
      subst h
      exact ⟨le_refl _, le_refl _⟩
  | recordDistribution c b amt =>
    simp only [execOp, ReliefFundManager.recordDistribution] at h
    split at h
    · exact Except.noConfusion h
    split at h
    · split at h
      · exact Except.noConfusion h
      injection h with h
      subst h
      by_cases hab : a = b
      · subst hab
        simp only [Function.update_same]
        exact ⟨Nat.le_add_right _ _, le_refl _⟩
      · simp [Function.update_noteq hab]
    · injection h with h
      subst h
      exact ⟨le_refl _, le_refl _⟩
  | pauseSystem c =>
    simp only [execOp, ReliefFundManager.pauseSystem] at h
    split at h
    · exact Except.noConfusion h
    split at h
    · exact Except.noConfusion h
    injection h with h
    subst h
    exact ⟨le_refl _, le_refl _⟩
  | unpauseSystem c =>
    simp only [execOp, ReliefFundManager.unpauseSystem] at h
    split at h
    · exact Except.noConfusion h
    split at h
    · exact Except.noConfusion h
    injection h with h
    subst h
    exact ⟨le_refl _, le_refl _⟩

/-- C8: across every registry operation (adds and removes of either role,
`recordTransfer`, `recordDistribution`, as well as pause/unpause and
`setStablecoin`), the accumulators `totalReceived` and `totalSpent` of
every beneficiary record never decrease. The hypothesis is the shape
Solidity storage guarantees for every slot: a record that was never
written (zero registration time) has zero accumulators. -/
theorem beneficiary_accumulators_monotone (s : ReliefFundManager) (op : Op)
    (a : Address)
    (hwf : (s.beneficiaries a).registeredAt = 0 →
      (s.beneficiaries a).totalReceived = 0 ∧ (s.beneficiaries a).totalSpent = 0) :
    (s.beneficiaries a).totalReceived ≤ ((step s op).beneficiaries a).totalReceived ∧
    (s.beneficiaries a).totalSpent ≤ ((step s op).beneficiaries a).totalSpent := by
  cases hE : execOp s op with
  | ok s' =>
    have hacc := execOp_accumulators s op s' hE a hwf
    simpa [step, hE] using hacc
  | error e => simp [step, hE]

/-- Witness for C8: beneficiary 5's accumulators do not decrease when a
transfer is recorded on `s1`. -/
theorem beneficiary_accumulators_monotone_witness :
    (s1.beneficiaries 5).totalReceived ≤
      ((step s1 (.recordTransfer 2 5 7 100 20)).beneficiaries 5).totalReceived ∧
    (s1.beneficiaries 5).totalSpent ≤
      ((step s1 (.recordTransfer 2 5 7 100 20)).beneficiaries 5).totalSpent :=
  beneficiary_accumulators_monotone s1 (.recordTransfer 2 5 7 100 20) 5
    (fun h => absurd h (by decide))

end Relief
